import Mathlib

set_option maxRecDepth 40000

/-!
Verification of the content scraping engine of the `nocode_scraping`
repository (file `backend/src/scraping.ts`, given as `src/unnamed/part_003`).

The engine is shallowly embedded: every external effect (the CSS grammar
checker, the browser page operations, the file-system cache, screenshot
files) is modelled either as an oracle in a `ScrapingEnv` record or as
explicit state (`World`).  Each embedded function also returns the list of
observable `Event`s it performed, in order, so that temporal claims
("before any browser interaction", "no second live navigation", "no
screenshot file is ever created") can be stated about the trace.

JavaScript promise rejections are modelled with `Except`; an exception that
escapes the `try` block of `getContent` is a `Thrown` value handled by the
embedded `catch` block (`handleScrapeFailure`).
-/

namespace Scraping

/-! ## SHA-256 (model of the node crypto module, sha256 hex digest)

The cache key of `loadPage` is the hex SHA-256 digest of the URL path.
The hash is implemented here over `Nat` with explicit reduction mod 2^32. -/

def w32 (x : Nat) : Nat := x % 4294967296

/-- Right rotation by `n` of a 32-bit value `x < 2^32`. -/
def rotr (n x : Nat) : Nat := w32 ((x >>> n) + ((x % (2 ^ n)) <<< (32 - n)))

def upSigma0 (x : Nat) : Nat := (rotr 2 x) ^^^ (rotr 13 x) ^^^ (rotr 22 x)

def upSigma1 (x : Nat) : Nat := (rotr 6 x) ^^^ (rotr 11 x) ^^^ (rotr 25 x)

def loSigma0 (x : Nat) : Nat := (rotr 7 x) ^^^ (rotr 18 x) ^^^ (x >>> 3)

def loSigma1 (x : Nat) : Nat := (rotr 17 x) ^^^ (rotr 19 x) ^^^ (x >>> 10)

def chFn (x y z : Nat) : Nat := (x &&& y) ^^^ ((4294967295 - x) &&& z)

def majFn (x y z : Nat) : Nat := (x &&& y) ^^^ (x &&& z) ^^^ (y &&& z)

def sha256K : List Nat :=
  [1116352408, 1899447441, 3049323471, 3921009573, 961987163,
   1508970993, 2453635748, 2870763221, 3624381080, 310598401,
   607225278, 1426881987, 1925078388, 2162078206, 2614888103,
   3248222580, 3835390401, 4022224774, 264347078, 604807628,
   770255983, 1249150122, 1555081692, 1996064986, 2554220882,
   2821834349, 2952996808, 3210313671, 3336571891, 3584528711,
   113926993, 338241895, 666307205, 773529912, 1294757372,
   1396182291, 1695183700, 1986661051, 2177026350, 2456956037,
   2730485921, 2820302411, 3259730800, 3345764771, 3516065817,
   3600352804, 4094571909, 275423344, 430227734, 506948616,
   659060556, 883997877, 958139571, 1322822218, 1537002063,
   1747873779, 1955562222, 2024104815, 2227730452, 2361852424,
   2428436474, 2756734187, 3204031479, 3329325298]

def sha256H0 : List Nat :=
  [1779033703, 3144134277, 1013904242, 2773480762, 1359893119,
   2600822924, 528734635, 1541459225]

/-- UTF-8 encoding of one Unicode code point, as bytes. -/
def utf8EncodeChar (c : Nat) : List Nat :=
  if c < 0x80 then [c]
  else if c < 0x800 then [0xC0 + c / 64, 0x80 + c % 64]
  else if c < 0x10000 then [0xE0 + c / 4096, 0x80 + (c / 64) % 64, 0x80 + c % 64]
  else [0xF0 + c / 262144, 0x80 + (c / 4096) % 64, 0x80 + (c / 64) % 64, 0x80 + c % 64]

/-- The UTF-8 bytes of a string (node hashes the UTF-8 encoding). -/
def strBytes (s : String) : List Nat :=
  (s.toList.map (fun c => utf8EncodeChar c.toNat)).flatten

/-- SHA-256 padding: append 0x80, zero bytes up to 56 mod 64, then the
bit length as 8 big-endian bytes. -/
def sha256Pad (msg : List Nat) : List Nat :=
  let len := msg.length
  let z := (119 - len % 64) % 64
  let bitLen := len * 8
  msg ++ [0x80] ++ List.replicate z 0 ++
    (List.range 8).map (fun i => (bitLen >>> (8 * (7 - i))) % 256)

/-- Split a byte list into 64-byte blocks (structural recursion on a fuel
bound so that the kernel can evaluate it). -/
def chunk64Fuel : Nat → List Nat → List (List Nat)
  | 0, _ => []
  | _, [] => []
  | fuel + 1, a :: l => (a :: l).take 64 :: chunk64Fuel fuel ((a :: l).drop 64)

/-- Split a byte list into 64-byte blocks. -/
def chunk64 (l : List Nat) : List (List Nat) := chunk64Fuel l.length l

/-- The 16 initial 32-bit big-endian words of a 64-byte block. -/
def blockWords (b : List Nat) : List Nat :=
  (List.range 16).map (fun i =>
    (b.getD (4 * i) 0) * 16777216 + (b.getD (4 * i + 1) 0) * 65536 +
    (b.getD (4 * i + 2) 0) * 256 + b.getD (4 * i + 3) 0)

/-- Extend 16 words to the 64-word message schedule. -/
def extendWords (ws : List Nat) : List Nat :=
  (List.range 48).foldl
    (fun w i =>
      let t := i + 16
      w ++ [w32 (loSigma1 (w.getD (t - 2) 0) + w.getD (t - 7) 0 +
                 loSigma0 (w.getD (t - 15) 0) + w.getD (t - 16) 0)])
    ws

/-- One compression round. The state is [a, b, c, d, e, f, g, h]. -/
def sha256Round (st : List Nat) (kw : Nat × Nat) : List Nat :=
  let a := st.getD 0 0
  let b := st.getD 1 0
  let c := st.getD 2 0
  let d := st.getD 3 0
  let e := st.getD 4 0
  let f := st.getD 5 0
  let g := st.getD 6 0
  let h := st.getD 7 0
  let t1 := w32 (h + upSigma1 e + chFn e f g + kw.1 + kw.2)
  let t2 := w32 (upSigma0 a + majFn a b c)
  [w32 (t1 + t2), a, b, c, w32 (d + t1), e, f, g]

/-- Compress one 64-byte block into the running hash value. -/
def sha256Block (h : List Nat) (b : List Nat) : List Nat :=
  let w := extendWords (blockWords b)
  let st := (sha256K.zip w).foldl sha256Round h
  (h.zip st).map (fun p => w32 (p.1 + p.2))

def hexDigit (n : Nat) : Char :=
  if n < 10 then Char.ofNat (48 + n) else Char.ofNat (87 + n)

/-- A 32-bit word as 8 lowercase hex digits. -/
def toHex8 (x : Nat) : String :=
  String.mk ((List.range 8).map (fun i => hexDigit ((x >>> (4 * (7 - i))) % 16)))

/-- Hex-encoded SHA-256 digest of a string, as produced by the node
crypto call `createHash(...).update(s).digest(...)` with sha256 and hex
encoding. -/
def sha256Hex (s : String) : String :=
  let blocks := chunk64 (sha256Pad (strBytes s))
  let h := blocks.foldl sha256Block sha256H0
  String.join (h.map toHex8)

/-! ## Data model

`DataSelector`, the status enums, the response/error classes and the
request shape come from `../models`, `../errors` and
`../interfaces/scraping`, which only the engine file imports. -/

/-- Modelled from the spec: selector status enum
(`status: enum{unknown, valid, invalid}`; `unknown` is the absent value of
the optional field). -/
inductive SelectorStatus
  | valid
  | invalid
  deriving DecidableEq, Repr

/-- Modelled from the spec: the failure-status taxonomy of section 7 plus
`success` (the discriminant of the unified result type). -/
inductive ScrapingStatus
  | success
  | invalidSelector
  | noContent
  | elementNotFound
  | error
  deriving DecidableEq, Repr

/-- Modelled from the spec: generic response status used by
`DataSelectorValidityResponse` (`GenericResponseStatus` in `../models`). -/
inductive GenericResponseStatus
  | success
  | error
  deriving DecidableEq, Repr

/-- Modelled from the spec: a selector
`{ path: string, language: enum{css} (default css), status }`.  The
`language` field is kept as a raw optional string, as in the TypeScript
runtime where any value may arrive over the wire. -/
structure DataSelector where
  path : Option String
  language : Option String
  status : Option SelectorStatus
  deriving DecidableEq, Repr

/-- Modelled from the spec: `DataSelectorValidityError` from `../errors`
(a validator crash, distinguishable from an invalid-selector result). -/
structure DataSelectorValidityError where
  message : String
  selector : DataSelector
  deriving DecidableEq, Repr

/-- Modelled from the spec: `DataSelectorValidityResponse` from `../models`;
its constructor takes the (annotated) selector and a list of error strings,
and carries a generic `success` status. -/
structure DataSelectorValidityResponse where
  selector : DataSelector
  errors : List String
  status : GenericResponseStatus := GenericResponseStatus.success
  deriving DecidableEq, Repr

/-- Modelled from the spec: `ScrapingError` from `../errors` — the tagged
failure `{ message, status, selector }`. -/
structure ScrapingError where
  message : String
  status : ScrapingStatus
  selector : Option DataSelector
  deriving DecidableEq, Repr

/-- Modelled from the spec: the success record
`{ content, selector, screenshot }` (`ScrapedContent` in `../models`),
discriminated by `status = success`. -/
structure ScrapedContent where
  content : String
  selector : DataSelector
  screenshot : String
  status : ScrapingStatus := ScrapingStatus.success
  deriving DecidableEq, Repr

/-- Modelled from the spec: the decomposed address (`new URL(req.url)`),
with the fields the engine reads: `hostname`, `pathname`, and the
serialization pieces `protocol`, `search` and `hash`
(`toString = protocol // hostname pathname search hash`). -/
structure UrlModel where
  protocol : String
  hostname : String
  pathname : String
  search : String
  hash : String
  deriving DecidableEq, Repr

/-- Serialization of the modelled address, as by `URL.toString`. -/
def urlToString (u : UrlModel) : String :=
  u.protocol ++ "//" ++ u.hostname ++ u.pathname ++ u.search ++ u.hash

/-- Modelled from the spec: the inbound request
`{ selector, url: string, clickBefore?: Selector[], useCache?: bool }`
(`IScrapingRequest` from `../interfaces/scraping`).  The `url` string is
carried in already-decomposed form; runtime-`undefined` fields are
`Option`. -/
structure IScrapingRequest where
  selector : Option DataSelector
  url : UrlModel
  clickBefore : Option (List (Option DataSelector))
  useCache : Option Bool
  deriving DecidableEq, Repr

/-! ## Effect model -/

/-- A JavaScript error thrown by an external library call: either a
`playwright.errors.TimeoutError` or any other error. -/
inductive JsError
  | timeoutErr (msg : String)
  | otherErr (msg : String)
  deriving DecidableEq, Repr

/-- Outcome of `cssValidator.validateText`: resolves with a valid/invalid
verdict, or itself throws. -/
inductive CssCheckOutcome
  | valid
  | invalid
  | throws (msg : String)
  deriving DecidableEq, Repr

/-- A browser page handle; the engine observes only its markup content. -/
structure Page where
  content : String
  deriving DecidableEq, Repr

/-- Oracles for all external calls made by the engine, fixed per request:
the CSS grammar checker, navigation (returning the rendered markup of
`page.content()`), element clicks, `locator(path).textContent()`
(`some` string or `none` for a null result), and
`locator(path).screenshot()` (returning the base64 of the bytes written). -/
structure ScrapingEnv where
  checkCss : String → CssCheckOutcome
  gotoPage : String → Except JsError String
  click : String → Except JsError Unit
  textContent : String → Except JsError (Option String)
  screenshot : String → Except JsError String

/-- Observable events, recorded in order of occurrence. -/
inductive Event
  | checkCss (text : String)
  | browserLaunch
  | cacheGetEv (ns key : String)
  | cacheSetEv (ns key : String)
  | setContent
  | goto (url : String)
  | waitTimeout (ms : Nat)
  | click (path : String)
  | locatorText (path : String)
  | screenshotCall (path : String)
  | fileWritten (path : String)
  | fileRead (path : String)
  | fileUnlink (path : String)
  deriving DecidableEq, Repr

/-- Template interpolation of an optional string; JavaScript prints the
word undefined for an absent value. -/
def optStr : Option String → String
  | none => "undefined"
  | some s => s

/-! ## Selector Validator (`validateSelector`, source lines 30–58) -/

/-- The synthetic empty rule wrapped around the selector path,
`` `${selector.path} {}` ``. -/
def wrappedRule (sel : DataSelector) : String :=
  optStr sel.path ++ " \x7b\x7d"

/-- Source `validateSelector`: rejects non-CSS languages, otherwise submits the
wrapped rule to the grammar checker and annotates the selector status;
a checker crash is rejected as a `DataSelectorValidityError`.  Returns the
JS promise outcome together with the event trace. -/
def validateSelector (env : ScrapingEnv) (sel : DataSelector) :
    Except DataSelectorValidityError DataSelectorValidityResponse × List Event :=
  if sel.language ≠ some "css" ∧ sel.language ≠ none then
    (Except.error
      { message := "Unsupported language " ++ optStr sel.language ++
          ", only CSS is currently supported"
        selector := sel }, [])
  else
    match env.checkCss (wrappedRule sel) with
    | CssCheckOutcome.valid =>
        (Except.ok
          { selector := { sel with status := some SelectorStatus.valid }
            errors := ["error parsing \x27" ++ optStr sel.path ++ "\x27"] },
         [Event.checkCss (wrappedRule sel)])
    | CssCheckOutcome.invalid =>
        (Except.ok
          { selector := { sel with status := some SelectorStatus.invalid }
            errors := ["error parsing \x27" ++ optStr sel.path ++ "\x27"] },
         [Event.checkCss (wrappedRule sel)])
    | CssCheckOutcome.throws m =>
        (Except.error { message := m, selector := sel },
         [Event.checkCss (wrappedRule sel)])

/-! ## Page cache and screenshot file system -/

/-- The on-disk page cache (`file-system-cache`): a list of
(namespace, key, markup) entries, most recent first. -/
abbrev Cache := List (String × String × String)

/-- Cache lookup (`cache.get(key)` inside the namespace `ns`). -/
def cacheGet (c : Cache) (ns key : String) : Option String :=
  match c.find? (fun e => e.1 == ns && e.2.1 == key) with
  | some e => some e.2.2
  | none => none

/-- Cache write (`cache.set(key, v)`): overwrites any entry with the same
namespace and key. -/
def cacheSet (c : Cache) (ns key v : String) : Cache :=
  (ns, key, v) :: c.filter (fun e => !(e.1 == ns && e.2.1 == key))

/-- The screenshot file system: a list of (path, base64 content) files. -/
abbrev Fs := List (String × String)

/-- Whether a file exists at `p`. -/
def fsHas (fs : Fs) (p : String) : Bool :=
  (List.find? (fun e => e.1 == p) fs).isSome

/-- Read the file at `p` (`readFile`). -/
def fsRead (fs : Fs) (p : String) : Option String :=
  match List.find? (fun e => e.1 == p) fs with
  | some e => some e.2
  | none => none

/-- Write (create or overwrite) the file at `p`. -/
def fsWrite (fs : Fs) (p v : String) : Fs :=
  (p, v) :: List.filter (fun e => !(e.1 == p)) fs

/-- Remove every entry at `p`. -/
def fsErase (fs : Fs) (p : String) : Fs :=
  List.filter (fun e => !(e.1 == p)) fs

/-- Delete the file at `p` (`unlink`): rejects when the file is absent. -/
def fsUnlink (fs : Fs) (p : String) : Except JsError Fs :=
  if fsHas fs p then Except.ok (fsErase fs p)
  else Except.error (JsError.otherErr "ENOENT")

/-- The mutable world visible to one request: page cache and file system. -/
structure World where
  cache : Cache
  fs : Fs
  deriving DecidableEq, Repr

/-! ## Interaction Sequencer (`clickElement`, source lines 67–123) -/

/-- Source `clickElement`: guards against an undefined selector or path,
rejects non-CSS languages with a generic error, validates the selector
(converting a validator crash into a generic error and an invalid verdict
into an invalid-selector error), then clicks; a click timeout is
classified element-not-found, any other click failure is a generic
error. -/
def clickElement (env : ScrapingEnv) (page : Page) (selector : Option DataSelector) :
    Except ScrapingError Bool × List Event :=
  match selector with
  | some sel =>
    match sel.path with
    | some p =>
      if sel.language ≠ some "css" ∧ sel.language ≠ none then
        (Except.error
          { message := "Unsupported language " ++ optStr sel.language ++
              ", only CSS is currently supported"
            status := ScrapingStatus.error
            selector := some sel }, [])
      else
        match validateSelector env sel with
        | (Except.error _, tr) =>
          (Except.error
            { message := "Error validating the selector [object Object]"
              status := ScrapingStatus.error
              selector := some sel }, tr)
        | (Except.ok resp, tr) =>
          if resp.status = GenericResponseStatus.error then
            (Except.error
              { message := "Error validating the selector [object Object]"
                status := ScrapingStatus.error
                selector := some resp.selector }, tr)
          else if resp.selector.status = some SelectorStatus.invalid then
            (Except.error
              { message := "Invalid selector [object Object]"
                status := ScrapingStatus.invalidSelector
                selector := some resp.selector }, tr)
          else
            -- `selector` was annotated in place by the validator
            let selM := resp.selector
            match env.click p with
            | Except.ok _ => (Except.ok true, tr ++ [Event.click p])
            | Except.error (JsError.timeoutErr _) =>
              (Except.error
                { message := "the selector " ++ p ++ " could not be found"
                  status := ScrapingStatus.elementNotFound
                  selector := some selM }, tr ++ [Event.click p])
            | Except.error (JsError.otherErr m) =>
              (Except.error
                { message := "error " ++ m ++ " when scraping " ++ p
                  status := ScrapingStatus.error
                  selector := some selM }, tr ++ [Event.click p])
    | none =>
      (Except.error
        { message := "Undefined selector or selector path"
          status := ScrapingStatus.error
          selector := some sel }, [])
  | none =>
    (Except.error
      { message := "Undefined selector or selector path"
        status := ScrapingStatus.error
        selector := none }, [])

/-- The pre-click loop of `getContent` (source lines 230–255): every
defined entry is attempted (the map over `clickBefore` does not
short-circuit), each successful click is followed by a 500 ms settle wait,
and the surfaced `clickErr` is the last failure observed — in this
sequential model of the concurrent `Promise.all`, the last failing entry
in list order. -/
def runClicks (env : ScrapingEnv) (page : Page) :
    List (Option DataSelector) → Option ScrapingError × List Event
  | [] => (none, [])
  | none :: rest => runClicks env page rest
  | some sel :: rest =>
    match clickElement env page (some sel) with
    | (Except.ok _, tr) =>
      let r := runClicks env page rest
      (r.1, tr ++ [Event.waitTimeout 500] ++ r.2)
    | (Except.error e, tr) =>
      let r := runClicks env page rest
      (some (r.1.getD e), tr ++ r.2)

/-! ## Page Acquirer (`loadPage`, source lines 134–174) -/

/-- The cache key: hex SHA-256 digest of the pathname of the address. -/
def cacheKeyOf (url : UrlModel) : String := sha256Hex url.pathname

/-- Source `loadPage`: launches a fresh browser page, then either replays
the cached markup for the address (namespace = hostname, key =
`cacheKeyOf`) into the page, or navigates live, reads the rendered markup
back and stores it in the cache. -/
def loadPage (env : ScrapingEnv) (url : UrlModel) (cache : Cache) :
    Except JsError Page × Cache × List Event :=
  let key := cacheKeyOf url
  let ns := url.hostname
  match cacheGet cache ns key with
  | some cachedHtml =>
    (Except.ok { content := cachedHtml }, cache,
     [Event.browserLaunch, Event.cacheGetEv ns key, Event.setContent])
  | none =>
    match env.gotoPage (urlToString url) with
    | Except.error e =>
      (Except.error e, cache,
       [Event.browserLaunch, Event.cacheGetEv ns key, Event.goto (urlToString url)])
    | Except.ok html =>
      (Except.ok { content := html }, cacheSet cache ns key html,
       [Event.browserLaunch, Event.cacheGetEv ns key, Event.goto (urlToString url),
        Event.cacheSetEv ns key])

/-! ## Scrape Orchestrator (`getContent`, source lines 183–309) -/

/-- Decidable equality for promise outcomes. -/
instance exceptDecEq {ε α : Type} [DecidableEq ε] [DecidableEq α] :
    DecidableEq (Except ε α)
  | Except.ok a, Except.ok b =>
    if h : a = b then isTrue (by rw [h]) else isFalse (by simp [h])
  | Except.ok _, Except.error _ => isFalse (by simp)
  | Except.error _, Except.ok _ => isFalse (by simp)
  | Except.error a, Except.error b =>
    if h : a = b then isTrue (by rw [h]) else isFalse (by simp [h])

/-- An exception escaping the `try` block of `getContent`: either a
`ScrapingError` (rethrown `clickErr`) or a raw JavaScript error from a
page/file operation. -/
inductive Thrown
  | scraping (e : ScrapingError)
  | js (e : JsError)
  deriving DecidableEq, Repr

/-- How the `try` block of `getContent` ends: `done` for a value returned
directly (resolve, or the no-content `return Promise.reject`), `thrown`
for an exception that reaches the `catch` block. -/
inductive BodyOutcome
  | done (r : Except ScrapingError ScrapedContent)
  | thrown (t : Thrown)
  deriving DecidableEq, Repr

/-- JavaScript `s.substring(s.lastIndexOf(c) + 1)`: the suffix after the
last occurrence of `c`, or the whole string when `c` is absent. -/
def afterLastChar (c : Char) (s : String) : String :=
  String.mk ((s.toList.reverse.takeWhile (fun x => x ≠ c)).reverse)

/-- The deterministic screenshot temporary path of a request,
`./<hostname>-<trailing path segment of the serialized url>.png`
(source lines 221–222). -/
def screenshotPathOf (url : UrlModel) : String :=
  "./" ++ url.hostname ++ "-" ++ afterLastChar '/' (urlToString url) ++ ".png"

/-- Truthiness of the text returned by `textContent` (`if (content)`):
a null result and the empty string are both falsy. -/
def contentTruthy : Option String → Bool
  | none => false
  | some s => s ≠ ""

/-- The extraction tail of the `try` block (source lines 257–276): read the
text content first, then capture the screenshot of the element into the
temporary file, re-read it as base64, delete the file unconditionally, and
only then decide between success and a no-content rejection. -/
def extractContent (env : ScrapingEnv) (sel2 : DataSelector) (p sp : String)
    (w : World) : BodyOutcome × World × List Event :=
  match env.textContent p with
  | Except.error e => (BodyOutcome.thrown (Thrown.js e), w, [Event.locatorText p])
  | Except.ok contentOpt =>
    match env.screenshot p with
    | Except.error e =>
      (BodyOutcome.thrown (Thrown.js e), w,
       [Event.locatorText p, Event.screenshotCall p])
    | Except.ok bytes =>
      let fs1 := fsWrite w.fs sp bytes
      match fsRead fs1 sp with
      | none =>
        (BodyOutcome.thrown (Thrown.js (JsError.otherErr "ENOENT")),
         { w with fs := fs1 },
         [Event.locatorText p, Event.screenshotCall p, Event.fileWritten sp,
          Event.fileRead sp])
      | some imageAsBase64 =>
        match fsUnlink fs1 sp with
        | Except.error e =>
          (BodyOutcome.thrown (Thrown.js e), { w with fs := fs1 },
           [Event.locatorText p, Event.screenshotCall p, Event.fileWritten sp,
            Event.fileRead sp, Event.fileUnlink sp])
        | Except.ok fs2 =>
          let tr := [Event.locatorText p, Event.screenshotCall p,
                     Event.fileWritten sp, Event.fileRead sp, Event.fileUnlink sp]
          match contentOpt with
          | some s =>
            if s ≠ "" then
              (BodyOutcome.done (Except.ok
                { content := s
                  selector := sel2
                  screenshot := "data:image/gif;base64," ++ imageAsBase64 }),
               { w with fs := fs2 }, tr)
            else
              (BodyOutcome.done (Except.error
                { message := "no content found for selector " ++ p
                  status := ScrapingStatus.noContent
                  selector := some sel2 }),
               { w with fs := fs2 }, tr)
          | none =>
            (BodyOutcome.done (Except.error
              { message := "no content found for selector " ++ p
                status := ScrapingStatus.noContent
                selector := some sel2 }),
             { w with fs := fs2 }, tr)

/-- The `try` block of `getContent` (source lines 224–276): acquire the
page, wait 500 ms, run the pre-click loop (rethrowing its recorded
failure), then extract. -/
def scrapeBody (env : ScrapingEnv) (r : IScrapingRequest) (sel2 : DataSelector)
    (p sp : String) (w : World) : BodyOutcome × World × List Event :=
  match loadPage env r.url w.cache with
  | (Except.error e, c2, tr1) =>
    (BodyOutcome.thrown (Thrown.js e), { w with cache := c2 }, tr1)
  | (Except.ok page, c2, tr1) =>
    let w1 : World := { w with cache := c2 }
    let tr2 := tr1 ++ [Event.waitTimeout 500]
    match r.clickBefore with
    | none =>
      match extractContent env sel2 p sp w1 with
      | (b, w2, tre) => (b, w2, tr2 ++ tre)
    | some l =>
      match runClicks env page l with
      | (some e, tr3) =>
        (BodyOutcome.thrown (Thrown.scraping e), w1, tr2 ++ tr3)
      | (none, tr3) =>
        match extractContent env sel2 p sp w1 with
        | (b, w2, tre) => (b, w2, tr2 ++ tr3 ++ tre)

/-- The `catch` block of `getContent` (source lines 277–308): a raw
timeout error is classified no-content (without any cleanup — the
screenshot is only taken after the text was read); every other exception
first gets a best-effort swallowed unlink of the screenshot file, then a
`ScrapingError` is re-raised unchanged and anything else is wrapped as a
generic error. -/
def handleScrapeFailure (sel2 : DataSelector) (p sp : String) (t : Thrown)
    (w : World) : Except ScrapingError ScrapedContent × World × List Event :=
  match t with
  | Thrown.js (JsError.timeoutErr _) =>
    (Except.error
      { message := "the selector " ++ p ++ " could not be found"
        status := ScrapingStatus.noContent
        selector := some sel2 }, w, [])
  | Thrown.scraping e =>
    (Except.error e, { w with fs := fsErase w.fs sp }, [Event.fileUnlink sp])
  | Thrown.js (JsError.otherErr m) =>
    (Except.error
      { message := "error " ++ m ++ " when scraping " ++ p
        status := ScrapingStatus.error
        selector := some sel2 },
     { w with fs := fsErase w.fs sp }, [Event.fileUnlink sp])

/-- Source `getContent`: guards the request shape, validates the primary
selector (a validator rejection becoming a generic error, an invalid
verdict an invalid-selector rejection), computes the screenshot path, and
runs the `try` block with the `catch` block of `handleScrapeFailure`.
The selector used after validation is the annotated one, as the source
mutates `req.selector` in place. -/
def getContent (env : ScrapingEnv) (req : Option IScrapingRequest) (w : World) :
    Except ScrapingError ScrapedContent × World × List Event :=
  match req with
  | none =>
    (Except.error
      { message := "invalid call", status := ScrapingStatus.error,
        selector := none }, w, [])
  | some r =>
    match r.selector with
    | none =>
      (Except.error
        { message := "invalid call", status := ScrapingStatus.error,
          selector := none }, w, [])
    | some sel =>
      match sel.path with
      | none =>
        (Except.error
          { message := "invalid call", status := ScrapingStatus.error,
            selector := none }, w, [])
      | some p =>
        match validateSelector env sel with
        | (Except.error _, tr) =>
          (Except.error
            { message := "invalid selector, [object Object]"
              status := ScrapingStatus.error
              selector := some sel }, w, tr)
        | (Except.ok resp, tr) =>
          if resp.status = GenericResponseStatus.error then
            (Except.error
              { message := "Error validating the selector [object Object]"
                status := ScrapingStatus.error
                selector := some resp.selector }, w, tr)
          else if resp.selector.status = some SelectorStatus.invalid then
            (Except.error
              { message := "Invalid selector [object Object]"
                status := ScrapingStatus.invalidSelector
                selector := some resp.selector }, w, tr)
          else
            let sel2 := resp.selector
            let sp := screenshotPathOf r.url
            match scrapeBody env r sel2 p sp w with
            | (BodyOutcome.done res, w2, tr2) => (res, w2, tr ++ tr2)
            | (BodyOutcome.thrown t, w2, tr2) =>
              let h := handleScrapeFailure sel2 p sp t w2
              (h.1, h.2.1, tr ++ tr2 ++ h.2.2)

/-- The status of a unified result, the discriminant of `ScrapeResult`. -/
def resultStatus : Except ScrapingError ScrapedContent → ScrapingStatus
  | Except.ok c => c.status
  | Except.error e => e.status

/-! ## Event classifiers and phase lemmas -/

/-- Events that read the primary content (`locator(path).textContent`). -/
def isExtractionEv : Event → Bool
  | Event.locatorText _ => true
  | _ => false

/-- Events that create a screenshot file on disk. -/
def isFileWriteEv : Event → Bool
  | Event.fileWritten _ => true
  | _ => false

/-- Events that interact with a browser page. -/
def isBrowserEv : Event → Bool
  | Event.browserLaunch => true
  | Event.goto _ => true
  | Event.setContent => true
  | Event.waitTimeout _ => true
  | Event.click _ => true
  | Event.locatorText _ => true
  | Event.screenshotCall _ => true
  | _ => false

/-- Live navigation events. -/
def isGotoEv : Event → Bool
  | Event.goto _ => true
  | _ => false

/-- File deletion attempts. -/
def isUnlinkEv : Event → Bool
  | Event.fileUnlink _ => true
  | _ => false

/-- Whether a run of `getContent` attempted the primary content extraction
(observable as a `locatorText` event in its trace). -/
def attemptsExtraction (env : ScrapingEnv) (req : Option IScrapingRequest)
    (w : World) : Bool :=
  (getContent env req w).2.2.any isExtractionEv

theorem validateSelector_trace (env : ScrapingEnv) (sel : DataSelector) :
    (validateSelector env sel).2.any isExtractionEv = false ∧
    (validateSelector env sel).2.any isFileWriteEv = false ∧
    (validateSelector env sel).2.any isBrowserEv = false := by
  unfold validateSelector
  split
  · simp
  · cases h : env.checkCss (wrappedRule sel) <;>
      simp [isExtractionEv, isFileWriteEv, isBrowserEv]

theorem clickElement_trace (env : ScrapingEnv) (page : Page)
    (osel : Option DataSelector) :
    (clickElement env page osel).2.any isExtractionEv = false ∧
    (clickElement env page osel).2.any isFileWriteEv = false := by
  unfold clickElement
  rcases osel with _ | sel
  · simp
  simp only []
  rcases hval : validateSelector env sel with ⟨res, tr⟩
  have hv := validateSelector_trace env sel
  rw [hval] at hv
  rcases hpath : sel.path with _ | p
  · simp
  simp only []
  split
  · simp
  rcases res with e | resp
  · exact ⟨hv.1, hv.2.1⟩
  simp only []
  split
  · exact ⟨hv.1, hv.2.1⟩
  split
  · exact ⟨hv.1, hv.2.1⟩
  have h1 : tr.any isExtractionEv = false := hv.1
  have h2 : tr.any isFileWriteEv = false := hv.2.1
  cases hclick : env.click p with
  | ok v => simp [List.any_append, isExtractionEv, isFileWriteEv, h1, h2]
  | error e =>
    cases e <;> simp [List.any_append, isExtractionEv, isFileWriteEv, h1, h2]

theorem runClicks_trace (env : ScrapingEnv) (page : Page)
    (l : List (Option DataSelector)) :
    (runClicks env page l).2.any isExtractionEv = false ∧
    (runClicks env page l).2.any isFileWriteEv = false := by
  induction l with
  | nil => simp [runClicks]
  | cons hd rest ih =>
    rcases hd with _ | sel
    · simpa [runClicks] using ih
    · have hc := clickElement_trace env page (some sel)
      rcases hce : clickElement env page (some sel) with ⟨res, tr⟩
      rw [hce] at hc
      rcases res with e | b <;>
        simp [runClicks, hce, List.any_append, hc.1, hc.2, ih.1, ih.2,
          isExtractionEv, isFileWriteEv]

theorem loadPage_trace (env : ScrapingEnv) (url : UrlModel) (cache : Cache) :
    (loadPage env url cache).2.2.any isExtractionEv = false ∧
    (loadPage env url cache).2.2.any isFileWriteEv = false := by
  rcases hc : cacheGet cache url.hostname (cacheKeyOf url) with _ | v
  · rcases hg : env.gotoPage (urlToString url) with e | html <;>
      simp [loadPage, hc, hg, isExtractionEv, isFileWriteEv]
  · simp [loadPage, hc, isExtractionEv, isFileWriteEv]

theorem handleScrapeFailure_trace (sel2 : DataSelector) (p sp : String)
    (t : Thrown) (w : World) :
    (handleScrapeFailure sel2 p sp t w).2.2.any isExtractionEv = false ∧
    (handleScrapeFailure sel2 p sp t w).2.2.any isFileWriteEv = false := by
  rcases t with e | (m | m) <;> simp [handleScrapeFailure, isExtractionEv, isFileWriteEv]

/-! ## Cache and file-system lemmas -/

theorem cacheGet_cacheSet_self (c : Cache) (ns key v : String) :
    cacheGet (cacheSet c ns key v) ns key = some v := by
  simp [cacheGet, cacheSet, List.find?]

theorem fsHas_fsErase (fs : Fs) (p : String) :
    fsHas (fsErase fs p) p = false := by
  have h : List.find? (fun e => e.1 == p) (fsErase fs p) = none := by
    rw [List.find?_eq_none]
    intro x hx
    have h2 := (List.mem_filter.mp hx).2
    simp at h2 ⊢
    exact h2
  simp [fsHas, h]

theorem fsHas_fsWrite_self (fs : Fs) (p v : String) :
    fsHas (fsWrite fs p v) p = true := by
  simp [fsHas, fsWrite, List.find?]

theorem fsRead_fsWrite_self (fs : Fs) (p v : String) :
    fsRead (fsWrite fs p v) p = some v := by
  simp [fsRead, fsWrite, List.find?]

theorem fsUnlink_fsWrite_self (fs : Fs) (p v : String) :
    fsUnlink (fsWrite fs p v) p = Except.ok (fsErase (fsWrite fs p v) p) := by
  simp [fsUnlink, fsHas_fsWrite_self]

/-! ## Pre-click loop lemmas -/

theorem runClicks_fails_of_mem (env : ScrapingEnv) (page : Page)
    (l : List (Option DataSelector)) (sel : DataSelector) (e : ScrapingError)
    (hmem : some sel ∈ l)
    (hfail : (clickElement env page (some sel)).1 = Except.error e) :
    (runClicks env page l).1.isSome = true := by
  induction l with
  | nil => simp at hmem
  | cons hd rest ih =>
    rcases List.mem_cons.mp hmem with heq | hrest
    · subst heq
      rcases hce : clickElement env page (some sel) with ⟨res, tr⟩
      rw [hce] at hfail
      simp at hfail
      subst hfail
      rcases hrest2 : runClicks env page rest with ⟨acc, tr2⟩
      simp [runClicks, hce, hrest2]
    · rcases hd with _ | sel2
      · simpa [runClicks] using ih hrest
      · rcases hce : clickElement env page (some sel2) with ⟨res, tr⟩
        rcases hrest2 : runClicks env page rest with ⟨acc, tr2⟩
        have hih := ih hrest
        rw [hrest2] at hih
        rcases acc with _ | a
        · simp at hih
        · rcases res with e2 | b <;>
            simp [runClicks, hce, hrest2]

theorem runClicks_all_none (env : ScrapingEnv) (page : Page)
    (l : List (Option DataSelector)) (h : ∀ x ∈ l, x = none) :
    runClicks env page l = (none, []) := by
  induction l with
  | nil => rfl
  | cons hd rest ih =>
    have hhd := h hd (List.mem_cons_self hd rest)
    subst hhd
    rw [runClicks]
    exact ih (fun x hx => h x (List.mem_cons_of_mem _ hx))

theorem runClicks_uniform_err (env : ScrapingEnv) (page : Page)
    (l : List (Option DataSelector)) (sel : DataSelector) (e : ScrapingError)
    (huniform : ∀ x ∈ l, x = none ∨ x = some sel)
    (hmem : some sel ∈ l)
    (hfail : (clickElement env page (some sel)).1 = Except.error e) :
    (runClicks env page l).1 = some e := by
  induction l with
  | nil => simp at hmem
  | cons hd rest ih =>
    have hduniform : ∀ x ∈ rest, x = none ∨ x = some sel := by
      intro x hx
      exact huniform x (List.mem_cons_of_mem hd hx)
    rcases huniform hd (List.mem_cons_self hd rest) with hhd | hhd
    · subst hhd
      have hmem2 : some sel ∈ rest := by
        rcases List.mem_cons.mp hmem with h | h
        · simp at h
        · exact h
      rw [runClicks]
      exact ih hduniform hmem2
    · subst hhd
      rcases hce : clickElement env page (some sel) with ⟨res, tr⟩
      rw [hce] at hfail
      simp at hfail
      subst hfail
      by_cases hm : some sel ∈ rest
      · have hih := ih hduniform hm
        rcases hrest2 : runClicks env page rest with ⟨acc, tr2⟩
        rw [hrest2] at hih
        simp at hih
        simp [runClicks, hce, hrest2, hih]
      · have hallnone : ∀ x ∈ rest, x = none := by
          intro x hx
          rcases hduniform x hx with h | h
          · exact h
          · exact absurd (h ▸ hx) hm
        have hrest2 := runClicks_all_none env page rest hallnone
        simp [runClicks, hce, hrest2]

/-! ## Claim theorems -/

/-- C6: For a selector whose language is css or unset, when the grammar
checker runs cleanly `validateSelector` returns (does not fail), setting
the selector status in place to valid exactly when the wrapped rule
"path {}" is syntactically valid CSS, and to invalid otherwise; when the
checker itself throws, `validateSelector` fails with a
`DataSelectorValidityError` (a different type than an invalid-selector
response) rather than returning an invalid status. -/
theorem claim_C6_validator_verdicts (env : ScrapingEnv) (sel : DataSelector)
    (hlang : sel.language = some "css" ∨ sel.language = none) :
    (env.checkCss (wrappedRule sel) = CssCheckOutcome.valid →
      (validateSelector env sel).1 =
        Except.ok { selector := { sel with status := some SelectorStatus.valid }
                    errors := ["error parsing \x27" ++ optStr sel.path ++ "\x27"] }) ∧
    (env.checkCss (wrappedRule sel) = CssCheckOutcome.invalid →
      (validateSelector env sel).1 =
        Except.ok { selector := { sel with status := some SelectorStatus.invalid }
                    errors := ["error parsing \x27" ++ optStr sel.path ++ "\x27"] }) ∧
    (∀ m, env.checkCss (wrappedRule sel) = CssCheckOutcome.throws m →
      (validateSelector env sel).1 =
        Except.error { message := m, selector := sel }) := by
  have hcond : ¬(sel.language ≠ some "css" ∧ sel.language ≠ none) := by
    rcases hlang with h | h <;> simp [h]
  refine ⟨fun h => ?_, fun h => ?_, fun m h => ?_⟩ <;>
    simp [validateSelector, hcond, h]

/-- Witness for C6 at a concrete selector and the three checker
outcomes. -/
theorem claim_C6_witness :
    ((validateSelector
        { checkCss := fun _ => CssCheckOutcome.valid
          gotoPage := fun _ => Except.error (JsError.otherErr "")
          click := fun _ => Except.ok ()
          textContent := fun _ => Except.ok none
          screenshot := fun _ => Except.ok "" }
        { path := some ".a", language := some "css", status := none }).1 =
      Except.ok { selector := { path := some ".a", language := some "css",
                                status := some SelectorStatus.valid }
                  errors := ["error parsing \x27.a\x27"] }) ∧
    ((validateSelector
        { checkCss := fun _ => CssCheckOutcome.invalid
          gotoPage := fun _ => Except.error (JsError.otherErr "")
          click := fun _ => Except.ok ()
          textContent := fun _ => Except.ok none
          screenshot := fun _ => Except.ok "" }
        { path := some "##", language := none, status := none }).1 =
      Except.ok { selector := { path := some "##", language := none,
                                status := some SelectorStatus.invalid }
                  errors := ["error parsing \x27##\x27"] }) ∧
    ((validateSelector
        { checkCss := fun _ => CssCheckOutcome.throws "crash"
          gotoPage := fun _ => Except.error (JsError.otherErr "")
          click := fun _ => Except.ok ()
          textContent := fun _ => Except.ok none
          screenshot := fun _ => Except.ok "" }
        { path := some ".a", language := none, status := none }).1 =
      Except.error { message := "crash"
                     selector := { path := some ".a", language := none,
                                   status := none } }) := by
  refine ⟨?_, ?_, ?_⟩
  · exact (claim_C6_validator_verdicts _ _ (Or.inl rfl)).1 rfl
  · exact (claim_C6_validator_verdicts _ _ (Or.inr rfl)).2.1 rfl
  · exact (claim_C6_validator_verdicts _ _ (Or.inr rfl)).2.2 "crash" rfl

/-- C7: For a selector whose language is defined and not css,
`validateSelector` fails immediately with the unsupported-language error
naming the offending value, with an empty event trace — so before the
grammar checker is invoked and before any network or cache access. -/
theorem claim_C7_unsupported_language (env : ScrapingEnv) (sel : DataSelector)
    (lang : String) (hl : sel.language = some lang) (hne : lang ≠ "css") :
    validateSelector env sel =
      (Except.error
        { message := "Unsupported language " ++ lang ++
            ", only CSS is currently supported"
          selector := sel }, []) := by
  have hcond : sel.language ≠ some "css" ∧ sel.language ≠ none := by
    simp [hl, hne]
  unfold validateSelector
  rw [if_pos hcond]
  simp [hl, optStr]

/-- Witness for C7 at a concrete xpath selector. -/
theorem claim_C7_witness :
    validateSelector
      { checkCss := fun _ => CssCheckOutcome.valid
        gotoPage := fun _ => Except.error (JsError.otherErr "")
        click := fun _ => Except.ok ()
        textContent := fun _ => Except.ok none
        screenshot := fun _ => Except.ok "" }
      { path := some "//div", language := some "xpath", status := none } =
    (Except.error
      { message := "Unsupported language xpath, only CSS is currently supported"
        selector := { path := some "//div", language := some "xpath",
                      status := none } }, []) := by
  exact claim_C7_unsupported_language _ _ "xpath" rfl (by decide)

/-- C8: For a pre-click attempt on a defined selector of css (or unset)
language, `clickElement` classifies failures by cause: an invalid
validation verdict yields an invalid-selector error; with a valid verdict,
a click timeout yields element-not-found, any other click failure yields
the generic error status, and a successful click resolves with `true`. -/
theorem claim_C8_click_classification (env : ScrapingEnv) (page : Page)
    (sel : DataSelector) (p : String)
    (hp : sel.path = some p)
    (hlang : sel.language = some "css" ∨ sel.language = none) :
    (env.checkCss (wrappedRule sel) = CssCheckOutcome.invalid →
      (clickElement env page (some sel)).1 =
        Except.error
          { message := "Invalid selector [object Object]"
            status := ScrapingStatus.invalidSelector
            selector := some { sel with status := some SelectorStatus.invalid } }) ∧
    (env.checkCss (wrappedRule sel) = CssCheckOutcome.valid →
      (env.click p = Except.ok () →
        (clickElement env page (some sel)).1 = Except.ok true) ∧
      (∀ m, env.click p = Except.error (JsError.timeoutErr m) →
        (clickElement env page (some sel)).1 =
          Except.error
            { message := "the selector " ++ p ++ " could not be found"
              status := ScrapingStatus.elementNotFound
              selector := some { sel with status := some SelectorStatus.valid } }) ∧
      (∀ m, env.click p = Except.error (JsError.otherErr m) →
        (clickElement env page (some sel)).1 =
          Except.error
            { message := "error " ++ m ++ " when scraping " ++ p
              status := ScrapingStatus.error
              selector := some { sel with status := some SelectorStatus.valid } })) := by
  have hcond : ¬(sel.language ≠ some "css" ∧ sel.language ≠ none) := by
    rcases hlang with h | h <;> simp [h]
  constructor
  · intro h
    simp [clickElement, validateSelector, hcond, hp, h]
  · intro h
    refine ⟨fun hc => ?_, fun m hc => ?_, fun m hc => ?_⟩ <;>
      simp [clickElement, validateSelector, hcond, hp, h, hc]

/-- Witness for C8 at a concrete selector and the four click outcomes. -/
theorem claim_C8_witness :
    ((clickElement
        { checkCss := fun _ => CssCheckOutcome.invalid
          gotoPage := fun _ => Except.error (JsError.otherErr "")
          click := fun _ => Except.ok ()
          textContent := fun _ => Except.ok none
          screenshot := fun _ => Except.ok "" }
        { content := "" }
        (some { path := some "##", language := none, status := none })).1 =
      Except.error
        { message := "Invalid selector [object Object]"
          status := ScrapingStatus.invalidSelector
          selector := some { path := some "##", language := none,
                             status := some SelectorStatus.invalid } }) ∧
    ((clickElement
        { checkCss := fun _ => CssCheckOutcome.valid
          gotoPage := fun _ => Except.error (JsError.otherErr "")
          click := fun _ => Except.ok ()
          textContent := fun _ => Except.ok none
          screenshot := fun _ => Except.ok "" }
        { content := "" }
        (some { path := some ".a", language := none, status := none })).1 =
      Except.ok true) ∧
    ((clickElement
        { checkCss := fun _ => CssCheckOutcome.valid
          gotoPage := fun _ => Except.error (JsError.otherErr "")
          click := fun _ => Except.error (JsError.timeoutErr "t")
          textContent := fun _ => Except.ok none
          screenshot := fun _ => Except.ok "" }
        { content := "" }
        (some { path := some ".a", language := none, status := none })).1 =
      Except.error
        { message := "the selector .a could not be found"
          status := ScrapingStatus.elementNotFound
          selector := some { path := some ".a", language := none,
                             status := some SelectorStatus.valid } }) ∧
    ((clickElement
        { checkCss := fun _ => CssCheckOutcome.valid
          gotoPage := fun _ => Except.error (JsError.otherErr "")
          click := fun _ => Except.error (JsError.otherErr "boom")
          textContent := fun _ => Except.ok none
          screenshot := fun _ => Except.ok "" }
        { content := "" }
        (some { path := some ".a", language := none, status := none })).1 =
      Except.error
        { message := "error boom when scraping .a"
          status := ScrapingStatus.error
          selector := some { path := some ".a", language := none,
                             status := some SelectorStatus.valid } }) := by
  refine ⟨?_, ?_, ?_, ?_⟩
  · exact (claim_C8_click_classification _ _ _ "##" rfl (Or.inr rfl)).1 rfl
  · exact ((claim_C8_click_classification _ _ _ ".a" rfl (Or.inr rfl)).2 rfl).1 rfl
  · exact ((claim_C8_click_classification _ _ _ ".a" rfl (Or.inr rfl)).2 rfl).2.1 "t" rfl
  · exact ((claim_C8_click_classification _ _ _ ".a" rfl (Or.inr rfl)).2 rfl).2.2 "boom" rfl

/-- C3: After a first acquisition of an address on a cache miss stored the
live markup, a second acquisition of any address with the same hostname and
pathname — the same address, or one differing only in query or fragment —
returns a page whose content equals the first call's cached markup, with no
live navigation event, and does so under an arbitrary environment (no
remote dependency); the cache key is the hex SHA-256 digest of the
pathname. -/
theorem claim_C3_cache_roundtrip (env : ScrapingEnv) (url : UrlModel)
    (c0 : Cache) (markup : String)
    (hmiss : cacheGet c0 url.hostname (cacheKeyOf url) = none)
    (hgoto : env.gotoPage (urlToString url) = Except.ok markup) :
    ((loadPage env url c0).1 = Except.ok { content := markup }) ∧
    (∀ (env2 : ScrapingEnv) (url2 : UrlModel),
      url2.hostname = url.hostname → url2.pathname = url.pathname →
      (loadPage env2 url2 (loadPage env url c0).2.1).1 =
          Except.ok { content := markup } ∧
        (loadPage env2 url2 (loadPage env url c0).2.1).2.2.any isGotoEv = false) ∧
    cacheKeyOf url = sha256Hex url.pathname := by
  have hc1 : (loadPage env url c0).2.1 =
      cacheSet c0 url.hostname (cacheKeyOf url) markup := by
    simp [loadPage, hmiss, hgoto]
  refine ⟨by simp [loadPage, hmiss, hgoto], ?_, rfl⟩
  intro env2 url2 hh hp
  have hkey : cacheKeyOf url2 = cacheKeyOf url := by
    simp [cacheKeyOf, hp]
  have hhit : cacheGet (cacheSet c0 url.hostname (cacheKeyOf url) markup)
      url2.hostname (cacheKeyOf url2) = some markup := by
    rw [hh, hkey]
    exact cacheGet_cacheSet_self c0 url.hostname (cacheKeyOf url) markup
  rw [hc1]
  constructor <;> simp [loadPage, hhit, isGotoEv]

/-- Witness for C3: first call on an empty cache navigates, second call on
the stored cache replays the markup with no navigation, also for the same
path with a query string. -/
theorem claim_C3_witness :
    ((loadPage
        { checkCss := fun _ => CssCheckOutcome.valid
          gotoPage := fun _ => Except.ok "<html>live</html>"
          click := fun _ => Except.ok ()
          textContent := fun _ => Except.ok none
          screenshot := fun _ => Except.ok "" }
        { protocol := "https:", hostname := "example.test", pathname := "/p",
          search := "", hash := "" } []).1 =
      Except.ok { content := "<html>live</html>" }) ∧
    ((loadPage
        { checkCss := fun _ => CssCheckOutcome.valid
          gotoPage := fun _ => Except.error (JsError.otherErr "offline")
          click := fun _ => Except.ok ()
          textContent := fun _ => Except.ok none
          screenshot := fun _ => Except.ok "" }
        { protocol := "https:", hostname := "example.test", pathname := "/p",
          search := "?q=1", hash := "" }
        (loadPage
          { checkCss := fun _ => CssCheckOutcome.valid
            gotoPage := fun _ => Except.ok "<html>live</html>"
            click := fun _ => Except.ok ()
            textContent := fun _ => Except.ok none
            screenshot := fun _ => Except.ok "" }
          { protocol := "https:", hostname := "example.test", pathname := "/p",
            search := "", hash := "" } []).2.1).1 =
      Except.ok { content := "<html>live</html>" }) ∧
    ((loadPage
        { checkCss := fun _ => CssCheckOutcome.valid
          gotoPage := fun _ => Except.error (JsError.otherErr "offline")
          click := fun _ => Except.ok ()
          textContent := fun _ => Except.ok none
          screenshot := fun _ => Except.ok "" }
        { protocol := "https:", hostname := "example.test", pathname := "/p",
          search := "?q=1", hash := "" }
        (loadPage
          { checkCss := fun _ => CssCheckOutcome.valid
            gotoPage := fun _ => Except.ok "<html>live</html>"
            click := fun _ => Except.ok ()
            textContent := fun _ => Except.ok none
            screenshot := fun _ => Except.ok "" }
          { protocol := "https:", hostname := "example.test", pathname := "/p",
            search := "", hash := "" } []).2.1).2.2.any isGotoEv = false) := by
  have h := claim_C3_cache_roundtrip
    { checkCss := fun _ => CssCheckOutcome.valid
      gotoPage := fun _ => Except.ok "<html>live</html>"
      click := fun _ => Except.ok ()
      textContent := fun _ => Except.ok none
      screenshot := fun _ => Except.ok "" }
    { protocol := "https:", hostname := "example.test", pathname := "/p",
      search := "", hash := "" } [] "<html>live</html>" rfl rfl
  have h2 := h.2.1
    { checkCss := fun _ => CssCheckOutcome.valid
      gotoPage := fun _ => Except.error (JsError.otherErr "offline")
      click := fun _ => Except.ok ()
      textContent := fun _ => Except.ok none
      screenshot := fun _ => Except.ok "" }
    { protocol := "https:", hostname := "example.test", pathname := "/p",
      search := "?q=1", hash := "" } rfl rfl
  exact ⟨h.1, h2.1, h2.2⟩

/-- C4 counterexample: a request with useCache = false on an address whose
markup is cached does not re-fetch live and does not overwrite the cache
entry — the full pipeline performs no navigation event and leaves the old
entry in place, contradicting the claim. -/
theorem claim_C4_counterexample :
    ((getContent
        { checkCss := fun _ => CssCheckOutcome.valid
          gotoPage := fun _ => Except.ok "<html>NEW</html>"
          click := fun _ => Except.ok ()
          textContent := fun _ => Except.ok (some "txt")
          screenshot := fun _ => Except.ok "IMG" }
        (some { selector := some { path := some ".a", language := none, status := none }
                url := { protocol := "https:", hostname := "example.test",
                         pathname := "/p", search := "", hash := "" }
                clickBefore := none
                useCache := some false })
        { cache := [("example.test", sha256Hex "/p", "<html>OLD</html>")],
          fs := [] }).2.2.any isGotoEv = false) ∧
    (cacheGet
      (getContent
        { checkCss := fun _ => CssCheckOutcome.valid
          gotoPage := fun _ => Except.ok "<html>NEW</html>"
          click := fun _ => Except.ok ()
          textContent := fun _ => Except.ok (some "txt")
          screenshot := fun _ => Except.ok "IMG" }
        (some { selector := some { path := some ".a", language := none, status := none }
                url := { protocol := "https:", hostname := "example.test",
                         pathname := "/p", search := "", hash := "" }
                clickBefore := none
                useCache := some false })
        { cache := [("example.test", sha256Hex "/p", "<html>OLD</html>")],
          fs := [] }).2.1.cache
      "example.test" (sha256Hex "/p") = some "<html>OLD</html>") := by
  constructor <;> decide

/-- C4 amended: the useCache flag is ignored by the engine — for an address
whose markup is already cached, `loadPage` always takes the cached fast
path: it returns the cached markup, performs no navigation, and leaves the
cache (in particular the existing entry) unchanged; and `getContent` is
insensitive to the useCache field of the request. -/
theorem claim_C4_usecache_ignored (env : ScrapingEnv) (url : UrlModel)
    (c : Cache) (v : String)
    (hhit : cacheGet c url.hostname (cacheKeyOf url) = some v) :
    ((loadPage env url c).1 = Except.ok { content := v }) ∧
    ((loadPage env url c).2.1 = c) ∧
    ((loadPage env url c).2.2.any isGotoEv = false) ∧
    (∀ (env2 : ScrapingEnv) (sel : Option DataSelector) (u : UrlModel)
       (cb : Option (List (Option DataSelector))) (b b2 : Option Bool) (w : World),
      getContent env2 (some ⟨sel, u, cb, b⟩) w =
        getContent env2 (some ⟨sel, u, cb, b2⟩) w) := by
  refine ⟨?_, ?_, ?_, ?_⟩
  · simp [loadPage, hhit]
  · simp [loadPage, hhit]
  · simp [loadPage, hhit, isGotoEv]
  · intro env2 sel u cb b b2 w
    simp only [getContent, scrapeBody]

/-- Witness for C4 amended at a concrete cached address. -/
theorem claim_C4_usecache_ignored_witness :
    ((loadPage
        { checkCss := fun _ => CssCheckOutcome.valid
          gotoPage := fun _ => Except.ok "<html>NEW</html>"
          click := fun _ => Except.ok ()
          textContent := fun _ => Except.ok (some "txt")
          screenshot := fun _ => Except.ok "IMG" }
        { protocol := "https:", hostname := "example.test", pathname := "/p",
          search := "", hash := "" }
        [("example.test", sha256Hex "/p", "<html>OLD</html>")]).1 =
      Except.ok { content := "<html>OLD</html>" }) ∧
    ((loadPage
        { checkCss := fun _ => CssCheckOutcome.valid
          gotoPage := fun _ => Except.ok "<html>NEW</html>"
          click := fun _ => Except.ok ()
          textContent := fun _ => Except.ok (some "txt")
          screenshot := fun _ => Except.ok "IMG" }
        { protocol := "https:", hostname := "example.test", pathname := "/p",
          search := "", hash := "" }
        [("example.test", sha256Hex "/p", "<html>OLD</html>")]).2.1 =
      [("example.test", sha256Hex "/p", "<html>OLD</html>")]) := by
  have h := claim_C4_usecache_ignored
    { checkCss := fun _ => CssCheckOutcome.valid
      gotoPage := fun _ => Except.ok "<html>NEW</html>"
      click := fun _ => Except.ok ()
      textContent := fun _ => Except.ok (some "txt")
      screenshot := fun _ => Except.ok "IMG" }
    { protocol := "https:", hostname := "example.test", pathname := "/p",
      search := "", hash := "" }
    [("example.test", sha256Hex "/p", "<html>OLD</html>")]
    "<html>OLD</html>" (by decide)
  exact ⟨h.1, h.2.1⟩

/-- After the extraction tail runs and any thrown failure passes through
the catch cleanup, the screenshot temporary file is absent, provided it
was absent beforehand. -/
theorem extractContent_fs_false (env : ScrapingEnv) (sel2 : DataSelector)
    (p sp : String) (w : World) (h : fsHas w.fs sp = false) :
    fsHas (match extractContent env sel2 p sp w with
      | (BodyOutcome.done _, w2, _) => w2
      | (BodyOutcome.thrown t, w2, _) => (handleScrapeFailure sel2 p sp t w2).2.1).fs
      sp = false := by
  rcases htc : env.textContent p with e | copt
  · rcases e with m | m <;>
      simp [extractContent, handleScrapeFailure, htc, h, fsHas_fsErase]
  rcases hsc : env.screenshot p with e | bytes
  · rcases e with m | m <;>
      simp [extractContent, handleScrapeFailure, htc, hsc, h, fsHas_fsErase]
  rcases copt with _ | s
  · simp [extractContent, htc, hsc, fsRead_fsWrite_self, fsUnlink_fsWrite_self,
      fsHas_fsErase]
  by_cases hs : s = "" <;>
    simp [extractContent, htc, hsc, hs, fsRead_fsWrite_self, fsUnlink_fsWrite_self,
      fsHas_fsErase]

/-- C1 counterexample: on the raw-timeout exit path (the text read times
out before any screenshot exists) `getContent` returns a failure without
attempting any delete — no file-unlink event occurs — so the delete is not
attempted unconditionally on every exit path. -/
theorem claim_C1_counterexample :
    ((getContent
        { checkCss := fun _ => CssCheckOutcome.valid
          gotoPage := fun _ => Except.ok "<html></html>"
          click := fun _ => Except.ok ()
          textContent := fun _ => Except.error (JsError.timeoutErr "t")
          screenshot := fun _ => Except.ok "IMG" }
        (some { selector := some { path := some ".a", language := none, status := none }
                url := { protocol := "https:", hostname := "example.test",
                         pathname := "/p", search := "", hash := "" }
                clickBefore := none
                useCache := none })
        { cache := [], fs := [] }).2.2.any isUnlinkEv = false) ∧
    (resultStatus (getContent
        { checkCss := fun _ => CssCheckOutcome.valid
          gotoPage := fun _ => Except.ok "<html></html>"
          click := fun _ => Except.ok ()
          textContent := fun _ => Except.error (JsError.timeoutErr "t")
          screenshot := fun _ => Except.ok "IMG" }
        (some { selector := some { path := some ".a", language := none, status := none }
                url := { protocol := "https:", hostname := "example.test",
                         pathname := "/p", search := "", hash := "" }
                clickBefore := none
                useCache := none })
        { cache := [], fs := [] }).1 = ScrapingStatus.noContent) := by
  constructor <;> decide

/-- C1 amended: for every request and environment, if the screenshot
temporary file of the request is not present before the call, it is not
present after `getContent` returns — on success, on a no-content failure,
and on every other exit path (the raw-timeout exit performs no delete, but
no file can exist there since the text is read before the screenshot); and
the outcome returned by the `catch` cleanup does not depend on the
file-system state, so a failure of the swallowed delete never changes the
returned result. -/
theorem claim_C1_screenshot_cleanup (env : ScrapingEnv) (req : IScrapingRequest)
    (w : World) (h : fsHas w.fs (screenshotPathOf req.url) = false) :
    fsHas (getContent env (some req) w).2.1.fs (screenshotPathOf req.url) = false ∧
    (∀ (sel2 : DataSelector) (p sp : String) (t : Thrown) (w1 w2 : World),
      (handleScrapeFailure sel2 p sp t w1).1 = (handleScrapeFailure sel2 p sp t w2).1) := by
  constructor
  case right =>
    intro sel2 p sp t w1 w2
    rcases t with e | (m | m) <;> rfl
  case left =>
    rcases req with ⟨osel, url, cb, uc⟩
    rcases osel with _ | sel
    · exact h
    rcases hpath : sel.path with _ | p
    · simpa [getContent, hpath] using h
    rcases hval : validateSelector env sel with ⟨vres, vtr⟩
    rcases vres with verr | resp
    · simpa [getContent, hpath, hval] using h
    by_cases hgs : resp.status = GenericResponseStatus.error
    · simpa [getContent, hpath, hval, hgs] using h
    by_cases hinv : resp.selector.status = some SelectorStatus.invalid
    · simpa [getContent, hpath, hval, hgs, hinv] using h
    rcases hlp : loadPage env url w.cache with ⟨lres, c2, ltr⟩
    rcases lres with lerr | page0
    · rcases lerr with m | m <;>
        simp [getContent, scrapeBody, handleScrapeFailure, hpath, hval, hgs, hinv,
          hlp, h, fsHas_fsErase]
    rcases cb with _ | l
    · have hfix := extractContent_fs_false env resp.selector p (screenshotPathOf url)
        { cache := c2, fs := w.fs } h
      rcases hex : extractContent env resp.selector p (screenshotPathOf url)
          { cache := c2, fs := w.fs } with ⟨b, w2, tre⟩
      rw [hex] at hfix
      rcases b with res | t <;>
        simpa [getContent, scrapeBody, hpath, hval, hgs, hinv, hlp, hex] using hfix
    rcases hrc : runClicks env page0 l with ⟨acc, rtr⟩
    rcases acc with _ | e2
    · have hfix := extractContent_fs_false env resp.selector p (screenshotPathOf url)
        { cache := c2, fs := w.fs } h
      rcases hex : extractContent env resp.selector p (screenshotPathOf url)
          { cache := c2, fs := w.fs } with ⟨b, w2, tre⟩
      rw [hex] at hfix
      rcases b with res | t <;>
        simpa [getContent, scrapeBody, hpath, hval, hgs, hinv, hlp, hrc, hex]
          using hfix
    · simp [getContent, scrapeBody, handleScrapeFailure, hpath, hval, hgs, hinv,
        hlp, hrc, h, fsHas_fsErase]

/-- Witness for C1: a concrete run on a request whose pre-click entry
fails, starting from an empty file system, ends with no screenshot file. -/
theorem claim_C1_witness :
    fsHas (getContent
        { checkCss := fun _ => CssCheckOutcome.valid
          gotoPage := fun _ => Except.ok "<html></html>"
          click := fun _ => Except.error (JsError.otherErr "boom")
          textContent := fun _ => Except.ok (some "txt")
          screenshot := fun _ => Except.ok "IMG" }
        (some { selector := some { path := some ".a", language := none, status := none }
                url := { protocol := "https:", hostname := "example.test",
                         pathname := "/p", search := "", hash := "" }
                clickBefore := some [some { path := some ".pop", language := none,
                                            status := none }]
                useCache := none })
        { cache := [], fs := [] }).2.1.fs
      (screenshotPathOf { protocol := "https:", hostname := "example.test",
                          pathname := "/p", search := "", hash := "" }) = false := by
  exact (claim_C1_screenshot_cleanup
    { checkCss := fun _ => CssCheckOutcome.valid
      gotoPage := fun _ => Except.ok "<html></html>"
      click := fun _ => Except.error (JsError.otherErr "boom")
      textContent := fun _ => Except.ok (some "txt")
      screenshot := fun _ => Except.ok "IMG" }
    { selector := some { path := some ".a", language := none, status := none }
      url := { protocol := "https:", hostname := "example.test",
               pathname := "/p", search := "", hash := "" }
      clickBefore := some [some { path := some ".pop", language := none,
                                  status := none }]
      useCache := none }
    { cache := [], fs := [] } (by decide)).1

/-- C2: For every request with a clickBefore list containing an entry
whose `clickElement` fails (failed validation, click timeout, or any other
click failure), `getContent` fails, and the primary content extraction is
never attempted: the trace holds no text-content read and no screenshot
file creation. -/
theorem claim_C2_click_failure_aborts (env : ScrapingEnv) (req : IScrapingRequest)
    (w : World) (l : List (Option DataSelector)) (csel : DataSelector)
    (e : ScrapingError)
    (hcb : req.clickBefore = some l) (hmem : some csel ∈ l)
    (hfail : ∀ page, (clickElement env page (some csel)).1 = Except.error e) :
    (∃ err, (getContent env (some req) w).1 = Except.error err) ∧
    (getContent env (some req) w).2.2.any isExtractionEv = false ∧
    (getContent env (some req) w).2.2.any isFileWriteEv = false := by
  rcases req with ⟨osel, url, cb, uc⟩
  simp only at hcb
  subst hcb
  rcases osel with _ | sel
  · exact ⟨⟨_, rfl⟩, rfl, rfl⟩
  rcases hpath : sel.path with _ | p
  · refine ⟨?_, ?_, ?_⟩ <;> simp [getContent, hpath]
  have hvtr := validateSelector_trace env sel
  rcases hval : validateSelector env sel with ⟨vres, vtr⟩
  rw [hval] at hvtr
  have hvtr1 : vtr.any isExtractionEv = false := hvtr.1
  have hvtr2 : vtr.any isFileWriteEv = false := hvtr.2.1
  rcases vres with verr | resp
  · refine ⟨?_, ?_, ?_⟩ <;> simp [getContent, hpath, hval, hvtr1, hvtr2]
  by_cases hgs : resp.status = GenericResponseStatus.error
  · refine ⟨?_, ?_, ?_⟩ <;> simp [getContent, hpath, hval, hgs, hvtr1, hvtr2]
  by_cases hinv : resp.selector.status = some SelectorStatus.invalid
  · refine ⟨?_, ?_, ?_⟩ <;> simp [getContent, hpath, hval, hgs, hinv, hvtr1, hvtr2]
  have hltr := loadPage_trace env url w.cache
  rcases hlp : loadPage env url w.cache with ⟨lres, c2, ltr⟩
  rw [hlp] at hltr
  have hltr1 : ltr.any isExtractionEv = false := hltr.1
  have hltr2 : ltr.any isFileWriteEv = false := hltr.2
  rcases lres with lerr | page0
  · rcases lerr with m | m <;>
      · refine ⟨?_, ?_, ?_⟩ <;>
          simp [getContent, scrapeBody, handleScrapeFailure, hpath, hval, hgs, hinv,
            hlp, List.any_append, hvtr1, hvtr2, hltr1, hltr2, isExtractionEv,
            isFileWriteEv]
  have hrtr := runClicks_trace env page0 l
  rcases hrc : runClicks env page0 l with ⟨acc, rtr⟩
  rw [hrc] at hrtr
  have hrtr1 : rtr.any isExtractionEv = false := hrtr.1
  have hrtr2 : rtr.any isFileWriteEv = false := hrtr.2
  have hsome := runClicks_fails_of_mem env page0 l csel e hmem (hfail page0)
  rw [hrc] at hsome
  rcases acc with _ | e2
  · simp at hsome
  refine ⟨?_, ?_, ?_⟩ <;>
    simp [getContent, scrapeBody, handleScrapeFailure, hpath, hval, hgs, hinv,
      hlp, hrc, List.any_append, hvtr1, hvtr2, hltr1, hltr2, hrtr1, hrtr2,
      isExtractionEv, isFileWriteEv]

/-- Witness for C2: a concrete request with one failing pre-click entry
fails without any extraction or screenshot event. -/
theorem claim_C2_witness :
    (∃ err, (getContent
        { checkCss := fun _ => CssCheckOutcome.valid
          gotoPage := fun _ => Except.ok "<html></html>"
          click := fun _ => Except.error (JsError.timeoutErr "t")
          textContent := fun _ => Except.ok (some "txt")
          screenshot := fun _ => Except.ok "IMG" }
        (some { selector := some { path := some ".a", language := none, status := none }
                url := { protocol := "https:", hostname := "example.test",
                         pathname := "/p", search := "", hash := "" }
                clickBefore := some [some { path := some ".pop", language := none,
                                            status := none }]
                useCache := none })
        { cache := [], fs := [] }).1 = Except.error err) ∧
    ((getContent
        { checkCss := fun _ => CssCheckOutcome.valid
          gotoPage := fun _ => Except.ok "<html></html>"
          click := fun _ => Except.error (JsError.timeoutErr "t")
          textContent := fun _ => Except.ok (some "txt")
          screenshot := fun _ => Except.ok "IMG" }
        (some { selector := some { path := some ".a", language := none, status := none }
                url := { protocol := "https:", hostname := "example.test",
                         pathname := "/p", search := "", hash := "" }
                clickBefore := some [some { path := some ".pop", language := none,
                                            status := none }]
                useCache := none })
        { cache := [], fs := [] }).2.2.any isExtractionEv = false) ∧
    ((getContent
        { checkCss := fun _ => CssCheckOutcome.valid
          gotoPage := fun _ => Except.ok "<html></html>"
          click := fun _ => Except.error (JsError.timeoutErr "t")
          textContent := fun _ => Except.ok (some "txt")
          screenshot := fun _ => Except.ok "IMG" }
        (some { selector := some { path := some ".a", language := none, status := none }
                url := { protocol := "https:", hostname := "example.test",
                         pathname := "/p", search := "", hash := "" }
                clickBefore := some [some { path := some ".pop", language := none,
                                            status := none }]
                useCache := none })
        { cache := [], fs := [] }).2.2.any isFileWriteEv = false) := by
  exact claim_C2_click_failure_aborts
    { checkCss := fun _ => CssCheckOutcome.valid
      gotoPage := fun _ => Except.ok "<html></html>"
      click := fun _ => Except.error (JsError.timeoutErr "t")
      textContent := fun _ => Except.ok (some "txt")
      screenshot := fun _ => Except.ok "IMG" }
    { selector := some { path := some ".a", language := none, status := none }
      url := { protocol := "https:", hostname := "example.test",
               pathname := "/p", search := "", hash := "" }
      clickBefore := some [some { path := some ".pop", language := none,
                                  status := none }]
      useCache := none }
    { cache := [], fs := [] }
    [some { path := some ".pop", language := none, status := none }]
    { path := some ".pop", language := none, status := none }
    { message := "the selector .pop could not be found"
      status := ScrapingStatus.elementNotFound
      selector := some { path := some ".pop", language := none,
                         status := some SelectorStatus.valid } }
    rfl (List.mem_singleton.mpr rfl)
    (fun page => by
      have hx : (clickElement
          { checkCss := fun _ => CssCheckOutcome.valid
            gotoPage := fun _ => Except.ok "<html></html>"
            click := fun _ => Except.error (JsError.timeoutErr "t")
            textContent := fun _ => Except.ok (some "txt")
            screenshot := fun _ => Except.ok "IMG" }
          { content := "" }
          (some { path := some ".pop", language := none, status := none })).1 =
        Except.error
          { message := "the selector .pop could not be found"
            status := ScrapingStatus.elementNotFound
            selector := some { path := some ".pop", language := none,
                               status := some SelectorStatus.valid } } := by decide
      exact hx)

/-- C5 counterexample: a request whose primary selector has an undefined
path fails with the generic error status of the "invalid call" guard, not
with the invalid-selector status the claim requires. -/
theorem claim_C5_counterexample :
    resultStatus (getContent
        { checkCss := fun _ => CssCheckOutcome.valid
          gotoPage := fun _ => Except.ok "<html></html>"
          click := fun _ => Except.ok ()
          textContent := fun _ => Except.ok (some "txt")
          screenshot := fun _ => Except.ok "IMG" }
        (some { selector := some { path := none, language := none, status := none }
                url := { protocol := "https:", hostname := "example.test",
                         pathname := "/p", search := "", hash := "" }
                clickBefore := none
                useCache := none })
        { cache := [], fs := [] }).1 = ScrapingStatus.error ∧
    ScrapingStatus.error ≠ ScrapingStatus.invalidSelector := by
  constructor <;> decide

/-- C5 amended: a request whose selector or selector path is undefined is
rejected immediately with the generic error status (message "invalid
call"), with no event at all and an unchanged world; a request whose
primary selector fails syntax validation is rejected with the
invalid-selector status before any browser interaction (only the checker
event occurs) and with an unchanged world. -/
theorem claim_C5_validation_first :
    (∀ (env : ScrapingEnv) (w : World) (r : IScrapingRequest),
      (r.selector = none ∨ ∃ sel, r.selector = some sel ∧ sel.path = none) →
      getContent env (some r) w =
        (Except.error { message := "invalid call", status := ScrapingStatus.error,
                        selector := none }, w, [])) ∧
    (∀ (env : ScrapingEnv) (w : World) (r : IScrapingRequest) (sel : DataSelector)
       (p : String),
      r.selector = some sel → sel.path = some p →
      (sel.language = some "css" ∨ sel.language = none) →
      env.checkCss (wrappedRule sel) = CssCheckOutcome.invalid →
      resultStatus (getContent env (some r) w).1 = ScrapingStatus.invalidSelector ∧
      (getContent env (some r) w).2.1 = w ∧
      (getContent env (some r) w).2.2.any isBrowserEv = false) := by
  constructor
  · rintro env w ⟨osel, url, cb, uc⟩ (hs | ⟨sel, hs, hp⟩) <;> simp only at hs <;>
      subst hs
    · rfl
    · simp [getContent, hp]
  · intro env w r sel p hs hp hlang hcss
    have hcond : ¬(sel.language ≠ some "css" ∧ sel.language ≠ none) := by
      rcases hlang with h | h <;> simp [h]
    have hval : validateSelector env sel =
        (Except.ok { selector := { sel with status := some SelectorStatus.invalid }
                     errors := ["error parsing \x27" ++ optStr sel.path ++ "\x27"] },
         [Event.checkCss (wrappedRule sel)]) := by
      unfold validateSelector
      rw [if_neg hcond, hcss]
    rcases r with ⟨osel, url, cb, uc⟩
    simp only at hs
    subst hs
    refine ⟨?_, ?_, ?_⟩ <;>
      simp [getContent, hp, hval, resultStatus, isBrowserEv]

/-- Witness for C5 amended: a concrete undefined-path request and a
concrete syntactically invalid selector. -/
theorem claim_C5_witness :
    (getContent
        { checkCss := fun _ => CssCheckOutcome.valid
          gotoPage := fun _ => Except.ok "<html></html>"
          click := fun _ => Except.ok ()
          textContent := fun _ => Except.ok (some "txt")
          screenshot := fun _ => Except.ok "IMG" }
        (some { selector := some { path := none, language := none, status := none }
                url := { protocol := "https:", hostname := "example.test",
                         pathname := "/p", search := "", hash := "" }
                clickBefore := none
                useCache := none })
        { cache := [], fs := [] } =
      (Except.error { message := "invalid call", status := ScrapingStatus.error,
                      selector := none },
       { cache := [], fs := [] }, [])) ∧
    (resultStatus (getContent
        { checkCss := fun _ => CssCheckOutcome.invalid
          gotoPage := fun _ => Except.ok "<html></html>"
          click := fun _ => Except.ok ()
          textContent := fun _ => Except.ok (some "txt")
          screenshot := fun _ => Except.ok "IMG" }
        (some { selector := some { path := some "!!", language := none, status := none }
                url := { protocol := "https:", hostname := "example.test",
                         pathname := "/p", search := "", hash := "" }
                clickBefore := none
                useCache := none })
        { cache := [], fs := [] }).1 = ScrapingStatus.invalidSelector) ∧
    ((getContent
        { checkCss := fun _ => CssCheckOutcome.invalid
          gotoPage := fun _ => Except.ok "<html></html>"
          click := fun _ => Except.ok ()
          textContent := fun _ => Except.ok (some "txt")
          screenshot := fun _ => Except.ok "IMG" }
        (some { selector := some { path := some "!!", language := none, status := none }
                url := { protocol := "https:", hostname := "example.test",
                         pathname := "/p", search := "", hash := "" }
                clickBefore := none
                useCache := none })
        { cache := [], fs := [] }).2.2.any isBrowserEv = false) := by
  refine ⟨?_, ?_, ?_⟩
  · exact claim_C5_validation_first.1
      { checkCss := fun _ => CssCheckOutcome.valid
        gotoPage := fun _ => Except.ok "<html></html>"
        click := fun _ => Except.ok ()
        textContent := fun _ => Except.ok (some "txt")
        screenshot := fun _ => Except.ok "IMG" }
      { cache := [], fs := [] }
      { selector := some { path := none, language := none, status := none }
        url := { protocol := "https:", hostname := "example.test",
                 pathname := "/p", search := "", hash := "" }
        clickBefore := none
        useCache := none }
      (Or.inr ⟨{ path := none, language := none, status := none }, rfl, rfl⟩)
  · exact (claim_C5_validation_first.2
      { checkCss := fun _ => CssCheckOutcome.invalid
        gotoPage := fun _ => Except.ok "<html></html>"
        click := fun _ => Except.ok ()
        textContent := fun _ => Except.ok (some "txt")
        screenshot := fun _ => Except.ok "IMG" }
      { cache := [], fs := [] }
      { selector := some { path := some "!!", language := none, status := none }
        url := { protocol := "https:", hostname := "example.test",
                 pathname := "/p", search := "", hash := "" }
        clickBefore := none
        useCache := none }
      { path := some "!!", language := none, status := none } "!!"
      rfl rfl (Or.inr rfl) rfl).1
  · exact (claim_C5_validation_first.2
      { checkCss := fun _ => CssCheckOutcome.invalid
        gotoPage := fun _ => Except.ok "<html></html>"
        click := fun _ => Except.ok ()
        textContent := fun _ => Except.ok (some "txt")
        screenshot := fun _ => Except.ok "IMG" }
      { cache := [], fs := [] }
      { selector := some { path := some "!!", language := none, status := none }
        url := { protocol := "https:", hostname := "example.test",
                 pathname := "/p", search := "", hash := "" }
        clickBefore := none
        useCache := none }
      { path := some "!!", language := none, status := none } "!!"
      rfl rfl (Or.inr rfl) rfl).2.2

/-- C9 counterexample: a request that reaches extraction and finds an
empty text can still fail with the generic error status instead of
no-content — when the subsequent screenshot capture fails with a
non-timeout error — so the claim does not hold as stated. -/
theorem claim_C9_counterexample :
    (attemptsExtraction
      { checkCss := fun _ => CssCheckOutcome.valid
        gotoPage := fun _ => Except.ok "<html></html>"
        click := fun _ => Except.ok ()
        textContent := fun _ => Except.ok (some "")
        screenshot := fun _ => Except.error (JsError.otherErr "disk full") }
      (some { selector := some { path := some ".a", language := none, status := none }
              url := { protocol := "https:", hostname := "example.test",
                       pathname := "/p", search := "", hash := "" }
              clickBefore := none
              useCache := none })
      { cache := [], fs := [] } = true) ∧
    (resultStatus (getContent
      { checkCss := fun _ => CssCheckOutcome.valid
        gotoPage := fun _ => Except.ok "<html></html>"
        click := fun _ => Except.ok ()
        textContent := fun _ => Except.ok (some "")
        screenshot := fun _ => Except.error (JsError.otherErr "disk full") }
      (some { selector := some { path := some ".a", language := none, status := none }
              url := { protocol := "https:", hostname := "example.test",
                       pathname := "/p", search := "", hash := "" }
              clickBefore := none
              useCache := none })
      { cache := [], fs := [] }).1 = ScrapingStatus.error) ∧
    ScrapingStatus.error ≠ ScrapingStatus.noContent := by
  refine ⟨?_, ?_, ?_⟩ <;> decide

/-- C9 amended: for every request that reaches extraction, if the
extracted text is empty or absent (empty string, null, or a timeout
waiting for the node), `getContent` never returns success; and it fails
with the no-content status whenever the subsequent screenshot capture does
not itself fail with a non-timeout error (in that remaining corner the
status is the generic error).  Empty string and absent node are otherwise
treated identically. -/
theorem claim_C9_no_content (env : ScrapingEnv) (req : IScrapingRequest)
    (w : World) (sel : DataSelector) (p : String)
    (hsel : req.selector = some sel) (hp : sel.path = some p)
    (hreach : attemptsExtraction env (some req) w = true)
    (hempty : env.textContent p = Except.ok none ∨
      env.textContent p = Except.ok (some "") ∨
      ∃ m, env.textContent p = Except.error (JsError.timeoutErr m)) :
    (∀ c, (getContent env (some req) w).1 ≠ Except.ok c) ∧
    ((∀ m, env.screenshot p ≠ Except.error (JsError.otherErr m)) →
      resultStatus (getContent env (some req) w).1 = ScrapingStatus.noContent) := by
  rcases req with ⟨osel, url, cb, uc⟩
  simp only at hsel
  subst hsel
  rcases hval : validateSelector env sel with ⟨vres, vtr⟩
  have hvtr := validateSelector_trace env sel
  rw [hval] at hvtr
  have hv1 : vtr.any isExtractionEv = false := hvtr.1
  rcases vres with verr | resp
  · simp [attemptsExtraction, getContent, hp, hval, hv1] at hreach
  by_cases hgs : resp.status = GenericResponseStatus.error
  · simp [attemptsExtraction, getContent, hp, hval, hgs, hv1] at hreach
  by_cases hinv : resp.selector.status = some SelectorStatus.invalid
  · simp [attemptsExtraction, getContent, hp, hval, hgs, hinv, hv1] at hreach
  have hltrx := loadPage_trace env url w.cache
  rcases hlp : loadPage env url w.cache with ⟨lres, c2, ltr⟩
  rw [hlp] at hltrx
  have hl1 : ltr.any isExtractionEv = false := hltrx.1
  rcases lres with lerr | page0
  · rcases lerr with m | m <;>
      simp [attemptsExtraction, getContent, scrapeBody, handleScrapeFailure, hp,
        hval, hgs, hinv, hlp, List.any_append, hv1, hl1, isExtractionEv] at hreach
  rcases cb with _ | l
  · rcases hempty with htc | htc | ⟨m, htc⟩
    · rcases hsc : env.screenshot p with e | bytes
      · rcases e with m2 | m2
        · constructor
          · intro c
            simp [getContent, scrapeBody, extractContent, handleScrapeFailure,
              hp, hval, hgs, hinv, hlp, htc, hsc]
          · intro hscreen
            simp [getContent, scrapeBody, extractContent, handleScrapeFailure,
              resultStatus, hp, hval, hgs, hinv, hlp, htc, hsc]
        · constructor
          · intro c
            simp [getContent, scrapeBody, extractContent, handleScrapeFailure,
              hp, hval, hgs, hinv, hlp, htc, hsc]
          · intro hscreen
            exact absurd rfl (hscreen m2)
      · constructor
        · intro c
          simp [getContent, scrapeBody, extractContent, handleScrapeFailure,
            hp, hval, hgs, hinv, hlp, htc, hsc, fsRead_fsWrite_self,
            fsUnlink_fsWrite_self]
        · intro hscreen
          simp [getContent, scrapeBody, extractContent, resultStatus, hp, hval,
            hgs, hinv, hlp, htc, hsc, fsRead_fsWrite_self, fsUnlink_fsWrite_self]
    · rcases hsc : env.screenshot p with e | bytes
      · rcases e with m2 | m2
        · constructor
          · intro c
            simp [getContent, scrapeBody, extractContent, handleScrapeFailure,
              hp, hval, hgs, hinv, hlp, htc, hsc]
          · intro hscreen
            simp [getContent, scrapeBody, extractContent, handleScrapeFailure,
              resultStatus, hp, hval, hgs, hinv, hlp, htc, hsc]
        · constructor
          · intro c
            simp [getContent, scrapeBody, extractContent, handleScrapeFailure,
              hp, hval, hgs, hinv, hlp, htc, hsc]
          · intro hscreen
            exact absurd rfl (hscreen m2)
      · constructor
        · intro c
          simp [getContent, scrapeBody, extractContent, handleScrapeFailure,
            hp, hval, hgs, hinv, hlp, htc, hsc, fsRead_fsWrite_self,
            fsUnlink_fsWrite_self]
        · intro hscreen
          simp [getContent, scrapeBody, extractContent, resultStatus, hp, hval,
            hgs, hinv, hlp, htc, hsc, fsRead_fsWrite_self, fsUnlink_fsWrite_self]
    · constructor
      · intro c
        simp [getContent, scrapeBody, extractContent, handleScrapeFailure,
          hp, hval, hgs, hinv, hlp, htc]
      · intro hscreen
        simp [getContent, scrapeBody, extractContent, handleScrapeFailure,
          resultStatus, hp, hval, hgs, hinv, hlp, htc]
  · have hrtrx := runClicks_trace env page0 l
    rcases hrc : runClicks env page0 l with ⟨acc, rtr⟩
    rw [hrc] at hrtrx
    have hr1 : rtr.any isExtractionEv = false := hrtrx.1
    rcases acc with _ | e2
    · rcases hempty with htc | htc | ⟨m, htc⟩
      · rcases hsc : env.screenshot p with e | bytes
        · rcases e with m2 | m2
          · constructor
            · intro c
              simp [getContent, scrapeBody, extractContent, handleScrapeFailure,
                hp, hval, hgs, hinv, hlp, hrc, htc, hsc]
            · intro hscreen
              simp [getContent, scrapeBody, extractContent, handleScrapeFailure,
                resultStatus, hp, hval, hgs, hinv, hlp, hrc, htc, hsc]
          · constructor
            · intro c
              simp [getContent, scrapeBody, extractContent, handleScrapeFailure,
                hp, hval, hgs, hinv, hlp, hrc, htc, hsc]
            · intro hscreen
              exact absurd rfl (hscreen m2)
        · constructor
          · intro c
            simp [getContent, scrapeBody, extractContent, handleScrapeFailure,
              hp, hval, hgs, hinv, hlp, hrc, htc, hsc, fsRead_fsWrite_self,
              fsUnlink_fsWrite_self]
          · intro hscreen
            simp [getContent, scrapeBody, extractContent, resultStatus, hp, hval,
              hgs, hinv, hlp, hrc, htc, hsc, fsRead_fsWrite_self,
              fsUnlink_fsWrite_self]
      · rcases hsc : env.screenshot p with e | bytes
        · rcases e with m2 | m2
          · constructor
            · intro c
              simp [getContent, scrapeBody, extractContent, handleScrapeFailure,
                hp, hval, hgs, hinv, hlp, hrc, htc, hsc]
            · intro hscreen
              simp [getContent, scrapeBody, extractContent, handleScrapeFailure,
                resultStatus, hp, hval, hgs, hinv, hlp, hrc, htc, hsc]
          · constructor
            · intro c
              simp [getContent, scrapeBody, extractContent, handleScrapeFailure,
                hp, hval, hgs, hinv, hlp, hrc, htc, hsc]
            · intro hscreen
              exact absurd rfl (hscreen m2)
        · constructor
          · intro c
            simp [getContent, scrapeBody, extractContent, handleScrapeFailure,
              hp, hval, hgs, hinv, hlp, hrc, htc, hsc, fsRead_fsWrite_self,
              fsUnlink_fsWrite_self]
          · intro hscreen
            simp [getContent, scrapeBody, extractContent, resultStatus, hp, hval,
              hgs, hinv, hlp, hrc, htc, hsc, fsRead_fsWrite_self,
              fsUnlink_fsWrite_self]
      · constructor
        · intro c
          simp [getContent, scrapeBody, extractContent, handleScrapeFailure,
            hp, hval, hgs, hinv, hlp, hrc, htc]
        · intro hscreen
          simp [getContent, scrapeBody, extractContent, handleScrapeFailure,
            resultStatus, hp, hval, hgs, hinv, hlp, hrc, htc]
    · simp [attemptsExtraction, getContent, scrapeBody, handleScrapeFailure, hp,
        hval, hgs, hinv, hlp, hrc, List.any_append, hv1, hl1, hr1,
        isExtractionEv] at hreach

/-- Witness for C9 amended: a concrete request whose matched element has
empty text fails with the no-content status and does not succeed. -/
theorem claim_C9_witness :
    (∀ c, (getContent
        { checkCss := fun _ => CssCheckOutcome.valid
          gotoPage := fun _ => Except.ok "<html></html>"
          click := fun _ => Except.ok ()
          textContent := fun _ => Except.ok (some "")
          screenshot := fun _ => Except.ok "IMG" }
        (some { selector := some { path := some ".a", language := none, status := none }
                url := { protocol := "https:", hostname := "example.test",
                         pathname := "/p", search := "", hash := "" }
                clickBefore := none
                useCache := none })
        { cache := [], fs := [] }).1 ≠ Except.ok c) ∧
    resultStatus (getContent
        { checkCss := fun _ => CssCheckOutcome.valid
          gotoPage := fun _ => Except.ok "<html></html>"
          click := fun _ => Except.ok ()
          textContent := fun _ => Except.ok (some "")
          screenshot := fun _ => Except.ok "IMG" }
        (some { selector := some { path := some ".a", language := none, status := none }
                url := { protocol := "https:", hostname := "example.test",
                         pathname := "/p", search := "", hash := "" }
                clickBefore := none
                useCache := none })
        { cache := [], fs := [] }).1 = ScrapingStatus.noContent := by
  have h := claim_C9_no_content
    { checkCss := fun _ => CssCheckOutcome.valid
      gotoPage := fun _ => Except.ok "<html></html>"
      click := fun _ => Except.ok ()
      textContent := fun _ => Except.ok (some "")
      screenshot := fun _ => Except.ok "IMG" }
    { selector := some { path := some ".a", language := none, status := none }
      url := { protocol := "https:", hostname := "example.test",
               pathname := "/p", search := "", hash := "" }
      clickBefore := none
      useCache := none }
    { cache := [], fs := [] }
    { path := some ".a", language := none, status := none } ".a"
    rfl rfl (by decide) (Or.inr (Or.inl rfl))
  exact ⟨h.1, h.2 (fun m hm => by simp at hm)⟩

/-- C10: A clickBefore entry with a defined path and a defined non-css
language is rejected by `clickElement` with a `ScrapingError` of the
generic error status — not the invalid-selector status and not the
validator's own error type — by a check performed before selector
validation (the trace is empty, so the checker is never invoked);
consequently a `getContent` request whose pre-click list consists of such
an entry (besides skipped undefined slots) fails with the generic error
status. -/
theorem claim_C10_click_language_generic_error
    (env : ScrapingEnv) (page : Page) (w : World) (r : IScrapingRequest)
    (sel csel : DataSelector) (p cp lang : String)
    (l : List (Option DataSelector))
    (hcp : csel.path = some cp) (hclang : csel.language = some lang)
    (hne : lang ≠ "css")
    (hsel : r.selector = some sel) (hp : sel.path = some p)
    (hlang : sel.language = some "css" ∨ sel.language = none)
    (hcss : env.checkCss (wrappedRule sel) = CssCheckOutcome.valid)
    (hload : ∃ pg, (loadPage env r.url w.cache).1 = Except.ok pg)
    (hclicks : r.clickBefore = some l)
    (hmem : some csel ∈ l)
    (huniform : ∀ x ∈ l, x = none ∨ x = some csel) :
    clickElement env page (some csel) =
      (Except.error
        { message := "Unsupported language " ++ lang ++
            ", only CSS is currently supported"
          status := ScrapingStatus.error
          selector := some csel }, []) ∧
    resultStatus (getContent env (some r) w).1 = ScrapingStatus.error := by
  have hclick : ∀ pg : Page, clickElement env pg (some csel) =
      (Except.error
        { message := "Unsupported language " ++ lang ++
            ", only CSS is currently supported"
          status := ScrapingStatus.error
          selector := some csel }, []) := by
    intro pg
    simp [clickElement, hcp, hclang, hne, optStr]
  refine ⟨hclick page, ?_⟩
  have hcond : ¬(sel.language ≠ some "css" ∧ sel.language ≠ none) := by
    rcases hlang with h | h <;> simp [h]
  have hval : validateSelector env sel =
      (Except.ok { selector := { sel with status := some SelectorStatus.valid }
                   errors := ["error parsing \x27" ++ optStr sel.path ++ "\x27"] },
       [Event.checkCss (wrappedRule sel)]) := by
    unfold validateSelector
    rw [if_neg hcond, hcss]
  rcases r with ⟨osel, url, cb, uc⟩
  simp only at hsel hclicks
  subst hsel
  subst hclicks
  obtain ⟨pg, hpg⟩ := hload
  rcases hlp : loadPage env url w.cache with ⟨lres, c2, ltr⟩
  rw [hlp] at hpg
  rcases lres with lerr | page1
  · simp at hpg
  have hfail : (clickElement env page1 (some csel)).1 =
      Except.error
        { message := "Unsupported language " ++ lang ++
            ", only CSS is currently supported"
          status := ScrapingStatus.error
          selector := some csel } := by
    rw [hclick page1]
  have hrc1 := runClicks_uniform_err env page1 l csel _ huniform hmem hfail
  rcases hrc : runClicks env page1 l with ⟨acc, rtr⟩
  rw [hrc] at hrc1
  simp only at hrc1
  subst hrc1
  simp [getContent, scrapeBody, handleScrapeFailure, resultStatus, hp, hval, hlp,
    hrc]

/-- Witness for C10 at a concrete request with a single xpath pre-click
entry. -/
theorem claim_C10_witness :
    (clickElement
      { checkCss := fun _ => CssCheckOutcome.valid
        gotoPage := fun _ => Except.ok "<html></html>"
        click := fun _ => Except.ok ()
        textContent := fun _ => Except.ok (some "txt")
        screenshot := fun _ => Except.ok "IMG" }
      { content := "<html></html>" }
      (some { path := some "//div", language := some "xpath", status := none }) =
      (Except.error
        { message := "Unsupported language xpath, only CSS is currently supported"
          status := ScrapingStatus.error
          selector := some { path := some "//div", language := some "xpath",
                             status := none } }, [])) ∧
    resultStatus (getContent
      { checkCss := fun _ => CssCheckOutcome.valid
        gotoPage := fun _ => Except.ok "<html></html>"
        click := fun _ => Except.ok ()
        textContent := fun _ => Except.ok (some "txt")
        screenshot := fun _ => Except.ok "IMG" }
      (some { selector := some { path := some ".a", language := none, status := none }
              url := { protocol := "https:", hostname := "example.test",
                       pathname := "/p", search := "", hash := "" }
              clickBefore := some [some { path := some "//div",
                                          language := some "xpath",
                                          status := none }]
              useCache := none })
      { cache := [], fs := [] }).1 = ScrapingStatus.error := by
  exact claim_C10_click_language_generic_error
    { checkCss := fun _ => CssCheckOutcome.valid
      gotoPage := fun _ => Except.ok "<html></html>"
      click := fun _ => Except.ok ()
      textContent := fun _ => Except.ok (some "txt")
      screenshot := fun _ => Except.ok "IMG" }
    { content := "<html></html>" }
    { cache := [], fs := [] }
    { selector := some { path := some ".a", language := none, status := none }
      url := { protocol := "https:", hostname := "example.test",
               pathname := "/p", search := "", hash := "" }
      clickBefore := some [some { path := some "//div", language := some "xpath",
                                  status := none }]
      useCache := none }
    { path := some ".a", language := none, status := none }
    { path := some "//div", language := some "xpath", status := none }
    ".a" "//div" "xpath"
    [some { path := some "//div", language := some "xpath", status := none }]
    rfl rfl (by decide) rfl rfl (Or.inr rfl) rfl
    ⟨{ content := "<html></html>" }, by decide⟩ rfl
    (List.mem_singleton.mpr rfl) (by decide)

end Scraping
